import Mathlib

/-!
Shallow embedding of the `live/classes/clip.py` and `live/classes/detail_clip.py`
modules of pylive: a client-side proxy layer that translates clip attribute
access and clip actions into messages on a path-addressed transport ("OSC"
style paths such as `/live/clip/get/notes`).

Modelling conventions:
* The transport (`Query().query` / `Query().cmd`) is an external collaborator;
  it is modelled as an oracle `q : Message → List Value` giving the response
  to each query.  Every operation returns the list of messages it sent (in
  order) together with its result and the updated local object graph, so that
  theorems can speak about exactly which messages were issued and which local
  mutations happened.
* Python floats are carried opaquely as rationals: the code never computes
  with them, it only moves them between messages and fields.
* Python tuples of nonuniform length (note tuples) are modelled as `List Value`.
* Out-of-range indexing / wrong-arity constructor calls raise in Python; they
  are modelled with `Option` (`none` = the operation raises).
-/

/-- A scalar value carried on the wire or stored in a clip field. -/
inductive Value where
  | vint : Int → Value
  | vfloat : Rat → Value
  | vstr : String → Value
  | vbool : Bool → Value
  deriving DecidableEq, Repr

/-- One message on the transport: a path plus positional arguments. -/
structure Message where
  path : String
  args : List Value
  deriving DecidableEq, Repr

/-- Clip state constants (`CLIP_STATUS_*` from `live.constants`). -/
inductive ClipState where
  | empty
  | stopped
  | playing
  | starting
  deriving DecidableEq, Repr

/-- A member track of a group track.  `Clip.play` reads a member's clip slots
only through `track.clips[i] is not None`, so each slot is modelled by its
non-nullness (`Option Unit`). -/
structure MemberTrack where
  index : Nat
  playing : Bool
  clips : List (Option Unit)
  deriving DecidableEq, Repr

/-- The track a clip belongs to.  `isGroup` models the Python type test
`type(self.track) is live.Group`; `tracks` is the member-track list a Group
carries (empty and unused for a plain track). -/
structure Track where
  index : Nat
  playing : Bool
  isGroup : Bool
  tracks : List MemberTrack
  deriving DecidableEq, Repr

/-- A clip proxy: the local fields set by `Clip.__init__`. -/
structure Clip where
  track : Track
  index : Nat
  name : String
  length : Rat
  state : ClipState
  deriving DecidableEq, Repr

/-- `Clip.__init__(track, index, name, length)`: stores the four arguments and
sets `state` to `CLIP_STATUS_STOPPED`. -/
def Clip.init (track : Track) (index : Nat) (name : String) (length : Rat) : Clip :=
  { track := track, index := index, name := name, length := length,
    state := ClipState.stopped }

/-- Result of running one proxy operation: the messages sent on the transport
(in order), the returned value, and the clip object graph afterwards. -/
structure Effect (α : Type) where
  sent : List Message
  result : α
  clip : Clip
  deriving Repr

/-- `make_getter(class_identifier, prop)`: the generated getter issues one
query on path `"/live/%s/get/%s" % (class_identifier, prop)` with arguments
`(self.track.index, self.index)` and returns slot `[2]` of the response
(`none` models the IndexError raised on a response shorter than 3). -/
def make_getter (class_identifier prop : String) (q : Message → List Value)
    (c : Clip) : Effect (Option Value) :=
  let msg : Message :=
    { path := "/live/" ++ class_identifier ++ "/get/" ++ prop,
      args := [Value.vint c.track.index, Value.vint c.index] }
  { sent := [msg], result := (q msg)[2]?, clip := c }

/-- `make_setter(class_identifier, prop)`: the generated setter issues one
command on path `"/live/%s/set/%s" % (class_identifier, prop)` with arguments
`(self.track.index, self.index, value)` and returns nothing. -/
def make_setter (class_identifier prop : String) (value : Value)
    (c : Clip) : Effect Unit :=
  let msg : Message :=
    { path := "/live/" ++ class_identifier ++ "/set/" ++ prop,
      args := [Value.vint c.track.index, Value.vint c.index, value] }
  { sent := [msg], result := (), clip := c }

/-- The `ClipDetails` dataclass: eight positional fields. -/
structure ClipDetails where
  name : Value
  length : Value
  signature_numerator : Value
  signature_denominator : Value
  start_marker : Value
  end_marker : Value
  loop_start : Value
  loop_end : Value
  deriving DecidableEq, Repr

/-- The positional constructor call `ClipDetails(*xs)`: succeeds exactly when
`xs` supplies the eight field values; any other arity raises a TypeError
(`none`). -/
def mkClipDetails : List Value → Option ClipDetails
  | [a, b, c, d, e, f, g, h] => some ⟨a, b, c, d, e, f, g, h⟩
  | _ => none

/-- The body of the fan-out loop in `Clip.play`: a member track's `playing`
flag is set to true when `self.index < len(track.clips) and
track.clips[self.index] is not None`, and to false otherwise. -/
def fireMember (i : Nat) (t : MemberTrack) : MemberTrack :=
  if i < t.clips.length ∧ (t.clips.getD i none).isSome then
    { t with playing := true }
  else
    { t with playing := false }

/-- `Clip.play()`: sends `/live/clip_slot/fire` with `(track.index, index)`,
sets `self.track.playing = True`, and, when the track is a Group, updates each
member track's `playing` flag with the fan-out loop. -/
def Clip.play (c : Clip) : Effect Unit :=
  let msg : Message :=
    { path := "/live/clip_slot/fire",
      args := [Value.vint c.track.index, Value.vint c.index] }
  let track1 : Track := { c.track with playing := true }
  let track2 : Track :=
    if track1.isGroup then
      { track1 with tracks := track1.tracks.map (fireMember c.index) }
    else
      track1
  { sent := [msg], result := (), clip := { c with track := track2 } }

/-- `Clip.stop()`: sends `/live/clip/stop` with `(track.index, index)` and
sets `self.track.playing = False`. -/
def Clip.stop (c : Clip) : Effect Unit :=
  let msg : Message :=
    { path := "/live/clip/stop",
      args := [Value.vint c.track.index, Value.vint c.index] }
  { sent := [msg], result := (),
    clip := { c with track := { c.track with playing := false } } }

/-- The query message sent by the `Clip.details` property. -/
def Clip.detailsMsg (c : Clip) : Message :=
  { path := "/live/clip/get/details",
    args := [Value.vint c.track.index, Value.vint c.index] }

/-- `Clip.details`: queries `/live/clip/get/details` with
`(track.index, index)` and builds `ClipDetails(*details_tuple[2:])`. -/
def Clip.details (q : Message → List Value) (c : Clip) :
    Effect (Option ClipDetails) :=
  { sent := [c.detailsMsg],
    result := mkClipDetails ((q c.detailsMsg).drop 2),
    clip := c }

/-- Python `range(0, stop, step)` for a positive step. -/
def pyRangeStep0 (stop step : Nat) : List Nat :=
  (List.range ((stop + step - 1) / step)).map (fun i => i * step)

/-- Python slice `l[start:stop]` for nonnegative bounds. -/
def pySlice (l : List α) (start stop : Nat) : List α :=
  (l.drop start).take (stop - start)

/-- The note-grouping comprehension shared by `Clip.notes` and
`DetailClip.get_notes`:
`[tuple(r[i:i + 5]) for i in range(0, len(r), 5)]`. -/
def sliceChunks (r : List α) : List (List α) :=
  (pyRangeStep0 r.length 5).map (fun i => pySlice r i (i + 5))

/-- The query message sent by the `Clip.notes` property. -/
def Clip.notesMsg (c : Clip) : Message :=
  { path := "/live/clip/get/notes",
    args := [Value.vint c.track.index, Value.vint c.index] }

/-- `Clip.notes`: queries `/live/clip/get/notes` with `(track.index, index)`
and groups `response[2:]` into tuples of 5. -/
def Clip.notes (q : Message → List Value) (c : Clip) :
    Effect (List (List Value)) :=
  { sent := [c.notesMsg],
    result := sliceChunks ((q c.notesMsg).drop 2),
    clip := c }

/-- `Clip.remove_notes()`: one-way command. -/
def Clip.remove_notes (c : Clip) : Effect Unit :=
  { sent := [{ path := "/live/clip/remove/notes",
               args := [Value.vint c.track.index, Value.vint c.index] }],
    result := (), clip := c }

/-- `Clip.add_note(pitch, start_time, duration, velocity, mute)`: one-way
command carrying `(track.index, index, pitch, start_time, duration, velocity,
mute)`. -/
def Clip.add_note (c : Clip) (pitch : Int) (start_time duration : Rat)
    (velocity : Int) (mute : Bool) : Effect Unit :=
  { sent := [{ path := "/live/clip/add/notes",
               args := [Value.vint c.track.index, Value.vint c.index,
                        Value.vint pitch, Value.vfloat start_time,
                        Value.vfloat duration, Value.vint velocity,
                        Value.vbool mute] }],
    result := (), clip := c }

/-- `Clip.set_name(name)`: one-way command. -/
def Clip.set_name (c : Clip) (name : String) : Effect Unit :=
  { sent := [{ path := "/live/clip/set/name",
               args := [Value.vint c.track.index, Value.vint c.index,
                        Value.vstr name] }],
    result := (), clip := c }

/-- A value stored in the `__getstate__` snapshot dict. -/
inductive PickleValue where
  | ptrack : Track → PickleValue
  | pnat : Nat → PickleValue
  | pstr : String → PickleValue
  | prat : Rat → PickleValue
  deriving DecidableEq, Repr

/-- `Clip.__getstate__`: the snapshot dict with exactly the keys
`track`, `index`, `name`, `length`. -/
def Clip.getstate (c : Clip) : List (String × PickleValue) :=
  [("track", PickleValue.ptrack c.track),
   ("index", PickleValue.pnat c.index),
   ("name", PickleValue.pstr c.name),
   ("length", PickleValue.prat c.length)]

/-- A clip object as it exists right after unpickling.  Unpickling creates the
object without running `__init__` and then calls `__setstate__`, so every
attribute that `__setstate__` does not assign is absent; an absent attribute
is modelled as `none`. -/
structure RestoredClip where
  track : Option Track
  index : Option Nat
  name : Option String
  length : Option Rat
  state : Option ClipState
  deriving DecidableEq, Repr

/-- `Clip.__setstate__(d)`: assigns `track`, `index`, `name` and `length` from
the dict and assigns nothing else; in particular the method body contains no
assignment to `state`, so `state` stays absent.  (A value of the wrong shape
or a missing key yields `none` for that field, standing for the KeyError
Python would raise; snapshots produced by `Clip.getstate` always have all
four keys.) -/
def Clip.setstate (d : List (String × PickleValue)) : RestoredClip :=
  { track := match d.lookup "track" with
             | some (PickleValue.ptrack t) => some t
             | _ => none,
    index := match d.lookup "index" with
             | some (PickleValue.pnat n) => some n
             | _ => none,
    name := match d.lookup "name" with
            | some (PickleValue.pstr s) => some s
            | _ => none,
    length := match d.lookup "length" with
              | some (PickleValue.prat q) => some q
              | _ => none,
    state := none }

/-- `DetailClip.fetch_details`: queries `/live/view/detail_clip/get/details`
with no arguments and builds `ClipDetails(*details_tuple)` — no leading
elements are dropped. -/
def DetailClip.fetch_details (q : Message → List Value) :
    List Message × Option ClipDetails :=
  let msg : Message := { path := "/live/view/detail_clip/get/details", args := [] }
  ([msg], mkClipDetails (q msg))

/-- `DetailClip.get_notes`: queries `/live/view/detail_clip/get/notes` with no
arguments and groups the whole response into tuples of 5 — no leading elements
are dropped. -/
def DetailClip.get_notes (q : Message → List Value) :
    List Message × List (List Value) :=
  let msg : Message := { path := "/live/view/detail_clip/get/notes", args := [] }
  ([msg], sliceChunks (q msg))

/-! ### Concrete objects used in counterexamples and witnesses -/

/-- A concrete plain (non-group) track. -/
def exTrack : Track :=
  { index := 0, playing := false, isGroup := false, tracks := [] }

/-- A concrete clip on `exTrack`. -/
def exClip : Clip := Clip.init exTrack 0 "c" 4

/-- A concrete group track with two member tracks: member 0 has a clip in
slot 0, member 1 has an empty slot 0. -/
def exGroupTrack : Track :=
  { index := 3, playing := false, isGroup := true,
    tracks := [{ index := 4, playing := false, clips := [some ()] },
               { index := 5, playing := true, clips := [none] }] }

/-- A concrete clip at slot 0 of `exGroupTrack`. -/
def exGroupClip : Clip := Clip.init exGroupTrack 0 "g" 4

/-- A concrete transport oracle whose response has 6 values after the two
echoed indices (so the trailing length is 5·1 + 1). -/
def exOracle6 : Message → List Value := fun _ =>
  [Value.vint 0, Value.vint 0,
   Value.vint 60, Value.vfloat 0, Value.vfloat 1, Value.vint 100,
   Value.vbool false, Value.vint 62]

/-- A concrete 7-value flat response handed to both notes paths. -/
def exOracle7 : Message → List Value := fun _ =>
  [Value.vint 90, Value.vint 91,
   Value.vint 60, Value.vfloat 0, Value.vfloat 1, Value.vint 100,
   Value.vbool false]

/-- A concrete details response for `Clip.details`: two echoed indices
followed by the eight detail values. -/
def exOracle10 : Message → List Value := fun _ =>
  [Value.vint 0, Value.vint 0,
   Value.vstr "n", Value.vint 4, Value.vint 4, Value.vint 4,
   Value.vfloat 0, Value.vfloat 16, Value.vfloat 0, Value.vfloat 16]

/-- A concrete details response for `DetailClip.fetch_details`: exactly the
eight detail values, with no echoed indices. -/
def exOracle8 : Message → List Value := fun _ =>
  [Value.vstr "n", Value.vint 4, Value.vint 4, Value.vint 4,
   Value.vfloat 0, Value.vfloat 16, Value.vfloat 0, Value.vfloat 16]

/-! ### Helper lemmas about the chunk-of-5 comprehension -/

/-- Recursive reformulation of `sliceChunks`, convenient for induction. -/
def chunkRec : List α → List (List α)
  | [] => []
  | a :: rest => (a :: rest.take 4) :: chunkRec (rest.drop 4)
termination_by l => l.length
decreasing_by simp [List.length_drop]; omega

theorem sliceChunks_eq_chunkRec (r : List α) : sliceChunks r = chunkRec r := by
  induction r using chunkRec.induct with
  | case1 => simp [sliceChunks, pyRangeStep0, chunkRec]
  | case2 a rest ih =>
    simp only [chunkRec, ← ih]
    simp only [sliceChunks, pyRangeStep0, pySlice, List.length_cons, List.length_drop]
    have h5 : (rest.length + 1 + 5 - 1) / 5 = rest.length / 5 + 1 := by omega
    have h5' : (rest.length - 4 + 5 - 1) / 5 = rest.length / 5 := by omega
    rw [h5, h5', List.range_succ_eq_map]
    simp only [List.map_cons, List.map_map]
    congr 1
    apply List.map_congr_left
    intro i hi
    simp only [Function.comp_apply, Nat.add_sub_cancel_left]
    rw [List.drop_drop]
    have h1 : Nat.succ i * 5 = (4 + i * 5) + 1 := by omega
    rw [h1, List.drop_succ_cons]

theorem chunkRec_flatten (r : List α) : (chunkRec r).flatten = r := by
  induction r using chunkRec.induct with
  | case1 => simp [chunkRec]
  | case2 a rest ih =>
    simp only [chunkRec, List.flatten_cons, ih, List.cons_append]
    simp [List.take_append_drop]

theorem chunkRec_length (r : List α) : (chunkRec r).length = (r.length + 4) / 5 := by
  induction r using chunkRec.induct with
  | case1 => simp [chunkRec]
  | case2 a rest ih =>
    simp only [chunkRec, List.length_cons, ih, List.length_drop]
    omega

theorem chunkRec_full (r : List α) :
    r.length % 5 = 0 → ∀ ch ∈ chunkRec r, ch.length = 5 := by
  induction r using chunkRec.induct with
  | case1 => simp [chunkRec]
  | case2 a rest ih =>
    intro h ch hch
    simp only [chunkRec, List.mem_cons] at hch
    have h4 : 4 ≤ rest.length := by
      simp only [List.length_cons] at h; omega
    rcases hch with rfl | hch
    · simp only [List.length_cons, List.length_take]
      omega
    · refine ih ?_ ch hch
      simp only [List.length_drop, List.length_cons] at h ⊢
      omega

theorem sliceChunks_getElem (r : List α) (i : Nat) (h : i < (r.length + 4) / 5) :
    (sliceChunks r)[i]? = some ((r.drop (i * 5)).take 5) := by
  simp only [sliceChunks, pyRangeStep0, pySlice, List.getElem?_map]
  have h' : i < (r.length + 5 - 1) / 5 := by omega
  rw [List.getElem?_range h']
  simp [Nat.add_sub_cancel_left]

theorem sliceChunks_length (r : List α) : (sliceChunks r).length = (r.length + 4) / 5 := by
  rw [sliceChunks_eq_chunkRec, chunkRec_length]

theorem sliceChunks_flatten (r : List α) : (sliceChunks r).flatten = r := by
  rw [sliceChunks_eq_chunkRec, chunkRec_flatten]

theorem mkClipDetails_isSome (l : List Value) :
    (mkClipDetails l).isSome = true ↔ l.length = 8 := by
  rcases l with _ | ⟨a, _ | ⟨b, _ | ⟨c, _ | ⟨d, _ | ⟨e, _ | ⟨f, _ | ⟨g, _ | ⟨h, _ | ⟨i, t⟩⟩⟩⟩⟩⟩⟩⟩⟩ <;>
    simp [mkClipDetails]

theorem mkClipDetails_short (l : List Value) (h : l.length < 8) :
    mkClipDetails l = none := by
  cases hs : mkClipDetails l with
  | none => rfl
  | some d =>
    have : (mkClipDetails l).isSome = true := by rw [hs]; rfl
    rw [mkClipDetails_isSome] at this
    omega

/-- Full characterization of the chunk-of-5 comprehension: nothing is
dropped; a list of length `5k` yields `k` chunks of 5; a list of length
`5k + m` with `0 < m < 5` yields `k` chunks of 5 followed by one final chunk
holding the `m` leftover values. -/
theorem sliceChunks_spec (t : List α) (k m : Nat) (hm : m < 5)
    (hlen : t.length = 5 * k + m) :
    (sliceChunks t).flatten = t ∧
    (m = 0 → (sliceChunks t).length = k ∧ ∀ ch ∈ sliceChunks t, ch.length = 5) ∧
    (0 < m → (sliceChunks t).length = k + 1 ∧
      (∀ i, i < k → ∃ ch, (sliceChunks t)[i]? = some ch ∧ ch.length = 5) ∧
      (∃ ch, (sliceChunks t)[k]? = some ch ∧ ch.length = m)) := by
  refine ⟨sliceChunks_flatten t, ?_, ?_⟩
  · intro h0
    constructor
    · rw [sliceChunks_length]; omega
    · rw [sliceChunks_eq_chunkRec]
      exact chunkRec_full t (by omega)
  · intro hpos
    refine ⟨by rw [sliceChunks_length]; omega, ?_, ?_⟩
    · intro i hik
      refine ⟨(t.drop (i * 5)).take 5, sliceChunks_getElem t i (by omega), ?_⟩
      simp only [List.length_take, List.length_drop]
      omega
    · refine ⟨(t.drop (k * 5)).take 5, sliceChunks_getElem t k (by omega), ?_⟩
      simp only [List.length_take, List.length_drop]
      omega

/-- The fan-out loop body leaves a member track's slots and index unchanged
and sets its `playing` flag to true exactly when slot `i` exists and holds a
non-null clip. -/
theorem fireMember_spec (i : Nat) (t : MemberTrack) :
    (fireMember i t).index = t.index ∧ (fireMember i t).clips = t.clips ∧
    ((fireMember i t).playing = true ↔ t.clips[i]? = some (some ())) := by
  unfold fireMember
  by_cases hc : i < t.clips.length ∧ (t.clips.getD i none).isSome = true
  · rw [if_pos hc]
    obtain ⟨hlt, hsome⟩ := hc
    refine ⟨rfl, rfl, ?_⟩
    simp only [true_iff]
    rw [List.getD_eq_getElem t.clips none hlt] at hsome
    rw [List.getElem?_eq_getElem hlt]
    obtain ⟨u, hu⟩ := Option.isSome_iff_exists.mp hsome
    rw [hu]
  · rw [if_neg hc]
    refine ⟨rfl, rfl, ?_⟩
    simp only [Bool.false_eq_true, false_iff]
    intro habs
    apply hc
    by_cases hlt : i < t.clips.length
    · refine ⟨hlt, ?_⟩
      rw [List.getElem?_eq_getElem hlt] at habs
      rw [List.getD_eq_getElem t.clips none hlt]
      simp only [Option.some.injEq] at habs
      rw [habs]
      rfl
    · rw [List.getElem?_eq_none (by omega)] at habs
      exact absurd habs (by simp)

/-! ### Claim theorems -/

/-- C1 counterexample: the claim that a trailing response of length `5k + r`
(`0 < r < 5`) yields exactly `k` tuples with the remainder dropped is false.
With a trailing length of 6 (`k = 1`, `r = 1`), `Clip.notes` returns 2
tuples, not 1: the final partial group is kept as a short tuple, not
dropped. -/
theorem Clip.notes_drops_remainder_false :
    ¬ (∀ (q : Message → List Value) (c : Clip) (k m : Nat),
        ((q c.notesMsg).drop 2).length = 5 * k + m → 0 < m → m < 5 →
        ((Clip.notes q c).result).length = k) := by
  intro h
  have h6 := h exOracle6 exClip 1 1 (by rfl) (by omega) (by omega)
  have h2 : ((Clip.notes exOracle6 exClip).result).length = 2 := by rfl
  omega

/-- C1 (amended): for every response whose trailing part (after the two
echoed indices) has length `5k`, `Clip.notes` returns exactly `k` note
tuples of 5 consecutive values preserving order and values; for trailing
length `5k + r` with `0 < r < 5` it returns `k + 1` tuples: `k` full tuples
of 5 followed by one final partial tuple holding the remaining `r` values
(nothing is dropped; flattening the result recovers the trailing part
exactly). -/
theorem Clip.notes_grouping (q : Message → List Value) (c : Clip) (k m : Nat)
    (hm : m < 5) (hlen : ((q c.notesMsg).drop 2).length = 5 * k + m) :
    ((Clip.notes q c).result).flatten = (q c.notesMsg).drop 2 ∧
    (m = 0 → ((Clip.notes q c).result).length = k ∧
      ∀ ch ∈ (Clip.notes q c).result, ch.length = 5) ∧
    (0 < m → ((Clip.notes q c).result).length = k + 1 ∧
      (∀ i, i < k →
        ∃ ch, ((Clip.notes q c).result)[i]? = some ch ∧ ch.length = 5) ∧
      (∃ ch, ((Clip.notes q c).result)[k]? = some ch ∧ ch.length = m)) :=
  sliceChunks_spec ((q c.notesMsg).drop 2) k m hm hlen

/-- C1 witness: on a concrete response with trailing length 6, the amended
theorem applies and gives 2 tuples. -/
theorem Clip.notes_grouping_witness :
    ((Clip.notes exOracle6 exClip).result).length = 1 + 1 :=
  ((Clip.notes_grouping exOracle6 exClip 1 1 (by omega) (by rfl)).2.2
    (by omega)).1

/-- C5: `DetailClip.get_notes` groups the response from its first element
without stripping anything, while `Clip.notes` strips exactly the first two
elements before grouping; on the same crafted 7-value flat response the
DetailClip result keeps the first two values (90, 91) in its first tuple and
the Clip result starts at the third value. -/
theorem DetailClip.get_notes_no_strip_asymmetry :
    (∀ q : Message → List Value,
      (DetailClip.get_notes q).2 =
        sliceChunks (q { path := "/live/view/detail_clip/get/notes", args := [] })) ∧
    (∀ (q : Message → List Value) (c : Clip),
      (Clip.notes q c).result = sliceChunks ((q c.notesMsg).drop 2)) ∧
    (DetailClip.get_notes exOracle7).2 =
      [[Value.vint 90, Value.vint 91, Value.vint 60, Value.vfloat 0, Value.vfloat 1],
       [Value.vint 100, Value.vbool false]] ∧
    (Clip.notes exOracle7 exClip).result =
      [[Value.vint 60, Value.vfloat 0, Value.vfloat 1, Value.vint 100, Value.vbool false]] := by
  refine ⟨fun q => rfl, fun q c => rfl, ?_, ?_⟩ <;> rfl

/-- C3 counterexample: the claim that a clip restored via `__setstate__` has
`state = STOPPED` is false: on the snapshot of the concrete clip `exClip`,
`__setstate__` assigns only track, index, name and length, and `state` is
left unassigned (`none`), not STOPPED. -/
theorem Clip.setstate_state_not_stopped :
    ¬ ((Clip.setstate (Clip.getstate exClip)).state = some ClipState.stopped) := by
  decide

/-- C3 (amended): the `__getstate__` snapshot holds exactly the four keys
track, index, name, length with the clip's field values, and restoring it
via `__setstate__` assigns exactly those four fields; `state` is not
assigned at all (it is left unset rather than reset to STOPPED). -/
theorem Clip.getstate_setstate_spec (c : Clip) :
    (Clip.getstate c).map Prod.fst = ["track", "index", "name", "length"] ∧
    Clip.setstate (Clip.getstate c) =
      { track := some c.track, index := some c.index, name := some c.name,
        length := some c.length, state := none } := by
  constructor
  · rfl
  · rfl

/-- C2: `play()` sends exactly one command `/live/clip_slot/fire` with
`(track.index, index)` and sets the clip's own track's `playing` flag to
true; when the track is a Group, each member track's `playing` flag becomes
true exactly when that member has a non-null clip at the same slot index and
false otherwise (slots and indices untouched); when the track is not a
Group, the member-track list is left completely unchanged.  All other local
clip fields are unchanged. -/
theorem Clip.play_spec (c : Clip) :
    (c.play).sent =
      [{ path := "/live/clip_slot/fire",
         args := [Value.vint c.track.index, Value.vint c.index] }] ∧
    (c.play).clip.track.playing = true ∧
    ((c.play).clip.index = c.index ∧ (c.play).clip.name = c.name ∧
      (c.play).clip.length = c.length ∧ (c.play).clip.state = c.state ∧
      (c.play).clip.track.index = c.track.index ∧
      (c.play).clip.track.isGroup = c.track.isGroup) ∧
    (c.track.isGroup = false → (c.play).clip.track.tracks = c.track.tracks) ∧
    (c.track.isGroup = true →
      (c.play).clip.track.tracks.length = c.track.tracks.length ∧
      ∀ (j : Nat) (t : MemberTrack), c.track.tracks[j]? = some t →
        ∃ t' : MemberTrack, (c.play).clip.track.tracks[j]? = some t' ∧
          t'.index = t.index ∧ t'.clips = t.clips ∧
          (t'.playing = true ↔ t.clips[c.index]? = some (some ()))) := by
  by_cases hg : c.track.isGroup = true
  · refine ⟨rfl, ?_, ⟨rfl, rfl, rfl, rfl, ?_, ?_⟩, ?_, ?_⟩
    · simp [Clip.play, hg]
    · simp [Clip.play, hg]
    · simp [Clip.play, hg]
    · intro hfalse
      rw [hg] at hfalse
      exact Bool.noConfusion hfalse
    · intro _
      constructor
      · simp [Clip.play, hg]
      · intro j t hjt
        refine ⟨fireMember c.index t, ?_, (fireMember_spec c.index t).1,
          (fireMember_spec c.index t).2.1, (fireMember_spec c.index t).2.2⟩
        simp [Clip.play, hg, List.getElem?_map, hjt]
  · have hg' : c.track.isGroup = false := by simpa using hg
    refine ⟨rfl, ?_, ⟨rfl, rfl, rfl, rfl, ?_, ?_⟩, ?_, ?_⟩
    · simp [Clip.play, hg']
    · simp [Clip.play, hg']
    · simp [Clip.play, hg']
    · intro _
      simp [Clip.play, hg']
    · intro htrue
      rw [htrue] at hg'
      exact Bool.noConfusion hg'

/-- C2 witness: firing the concrete group clip keeps both member tracks and
firing the concrete plain clip leaves the (empty) member-track list
unchanged. -/
theorem Clip.play_spec_witness :
    ((exGroupClip.play).clip.track.tracks.length = 2) ∧
    ((exClip.play).clip.track.tracks = exClip.track.tracks) :=
  ⟨(((Clip.play_spec exGroupClip).2.2.2.2 (by rfl)).1).trans (by rfl),
   (Clip.play_spec exClip).2.2.2.1 (by rfl)⟩

/-- C7: `stop()` sends exactly one command `/live/clip/stop` with
`(track.index, index)` and sets only the clip's own track's `playing` flag
to false; the member-track list (and thus every other track's `playing`
flag) is unchanged even when the track is a Group, and all other local
fields are unchanged. -/
theorem Clip.stop_spec (c : Clip) :
    (c.stop).sent =
      [{ path := "/live/clip/stop",
         args := [Value.vint c.track.index, Value.vint c.index] }] ∧
    (c.stop).clip.track.playing = false ∧
    (c.stop).clip.track.tracks = c.track.tracks ∧
    (c.stop).clip.track.index = c.track.index ∧
    (c.stop).clip.track.isGroup = c.track.isGroup ∧
    (c.stop).clip.index = c.index ∧ (c.stop).clip.name = c.name ∧
    (c.stop).clip.length = c.length ∧ (c.stop).clip.state = c.state :=
  ⟨rfl, rfl, rfl, rfl, rfl, rfl, rfl, rfl, rfl⟩

/-- C4: for every class identifier and property name, the generated getter
issues exactly one query `/live/<class>/get/<prop>` with
`(track.index, index)` and returns only the third response slot, and the
generated setter issues exactly one command `/live/<class>/set/<prop>` with
`(track.index, index, value)` and returns nothing; instantiated at class
`clip` and property `loop_start` the paths are `/live/clip/get/loop_start`
and `/live/clip/set/loop_start`. -/
theorem make_accessor_spec (class_identifier prop : String)
    (q : Message → List Value) (c : Clip) (value : Value) :
    (make_getter class_identifier prop q c).sent =
      [{ path := "/live/" ++ class_identifier ++ "/get/" ++ prop,
         args := [Value.vint c.track.index, Value.vint c.index] }] ∧
    (make_getter class_identifier prop q c).result =
      (q { path := "/live/" ++ class_identifier ++ "/get/" ++ prop,
           args := [Value.vint c.track.index, Value.vint c.index] })[2]? ∧
    (make_setter class_identifier prop value c).sent =
      [{ path := "/live/" ++ class_identifier ++ "/set/" ++ prop,
         args := [Value.vint c.track.index, Value.vint c.index, value] }] ∧
    (make_setter class_identifier prop value c).result = () ∧
    (make_getter "clip" "loop_start" q c).sent =
      [{ path := "/live/clip/get/loop_start",
         args := [Value.vint c.track.index, Value.vint c.index] }] ∧
    (make_setter "clip" "loop_start" value c).sent =
      [{ path := "/live/clip/set/loop_start",
         args := [Value.vint c.track.index, Value.vint c.index, value] }] :=
  ⟨rfl, rfl, rfl, rfl, by rfl, by rfl⟩

/-- C6: `details` issues exactly one query `/live/clip/get/details` with
`(track.index, index)`, discards the first two response values, and builds a
`ClipDetails` whose eight fields are, in order, the remaining eight values;
with fewer than 8 values after the first two, the construction fails
(`none`). -/
theorem Clip.details_spec (q : Message → List Value) (c : Clip) :
    (Clip.details q c).sent =
      [{ path := "/live/clip/get/details",
         args := [Value.vint c.track.index, Value.vint c.index] }] ∧
    (Clip.details q c).result = mkClipDetails ((q c.detailsMsg).drop 2) ∧
    (∀ v1 v2 v3 v4 v5 v6 v7 v8,
      (q c.detailsMsg).drop 2 = [v1, v2, v3, v4, v5, v6, v7, v8] →
      (Clip.details q c).result = some ⟨v1, v2, v3, v4, v5, v6, v7, v8⟩) ∧
    (((q c.detailsMsg).drop 2).length < 8 → (Clip.details q c).result = none) := by
  refine ⟨rfl, rfl, ?_, ?_⟩
  · intro v1 v2 v3 v4 v5 v6 v7 v8 h
    show mkClipDetails ((q c.detailsMsg).drop 2) = _
    rw [h]
    rfl
  · intro h
    show mkClipDetails ((q c.detailsMsg).drop 2) = none
    exact mkClipDetails_short _ h

/-- C6 witness: on a concrete 10-value response (two echoed indices plus
eight detail values) the construction succeeds with the eight trailing
values in field order. -/
theorem Clip.details_spec_witness :
    (Clip.details exOracle10 exClip).result =
      some ⟨Value.vstr "n", Value.vint 4, Value.vint 4, Value.vint 4,
            Value.vfloat 0, Value.vfloat 16, Value.vfloat 0, Value.vfloat 16⟩ :=
  (Clip.details_spec exOracle10 exClip).2.2.1 _ _ _ _ _ _ _ _ (by rfl)

/-- C8: no remote-backed getter (`make_getter` results, `details`, `notes`)
mutates any local clip field or any track's `playing` flag — each returns
the clip object graph unchanged; the same holds for the generated setters
and the one-way commands, so among all Clip operations only `play()` and
`stop()` write to the local mirror. -/
theorem Clip.getters_pure (class_identifier prop : String)
    (q : Message → List Value) (c : Clip) (value : Value) (nm : String)
    (pitch : Int) (start_time duration : Rat) (velocity : Int) (mute : Bool) :
    (make_getter class_identifier prop q c).clip = c ∧
    (Clip.details q c).clip = c ∧
    (Clip.notes q c).clip = c ∧
    (make_setter class_identifier prop value c).clip = c ∧
    (Clip.remove_notes c).clip = c ∧
    (Clip.add_note c pitch start_time duration velocity mute).clip = c ∧
    (Clip.set_name c nm).clip = c :=
  ⟨rfl, rfl, rfl, rfl, rfl, rfl, rfl⟩

/-- C9: the clip's own `state` field is set to STOPPED by `__init__` and is
never written by any Clip operation afterwards — `play`, `stop`, the
generated accessors, `details`, `notes`, `remove_notes`, `add_note` and
`set_name` all leave it exactly as it was. -/
theorem Clip.state_never_written (track : Track) (i : Nat) (nm : String)
    (len : Rat) (q : Message → List Value) (c : Clip)
    (class_identifier prop : String) (value : Value)
    (pitch : Int) (start_time duration : Rat) (velocity : Int) (mute : Bool) :
    (Clip.init track i nm len).state = ClipState.stopped ∧
    (c.play).clip.state = c.state ∧
    (c.stop).clip.state = c.state ∧
    (make_getter class_identifier prop q c).clip.state = c.state ∧
    (make_setter class_identifier prop value c).clip.state = c.state ∧
    (Clip.details q c).clip.state = c.state ∧
    (Clip.notes q c).clip.state = c.state ∧
    (Clip.remove_notes c).clip.state = c.state ∧
    (Clip.add_note c pitch start_time duration velocity mute).clip.state = c.state ∧
    (Clip.set_name c nm).clip.state = c.state :=
  ⟨rfl, rfl, rfl, rfl, rfl, rfl, rfl, rfl, rfl, rfl⟩

/-- C10: `DetailClip.fetch_details` issues exactly one query
`/live/view/detail_clip/get/details` with no arguments and passes the whole
response positionally to the `ClipDetails` constructor without dropping any
leading elements: it succeeds exactly when the response has exactly 8
values, and the eight fields are the response values in order. -/
theorem DetailClip.fetch_details_spec (q : Message → List Value) :
    (DetailClip.fetch_details q).1 =
      [{ path := "/live/view/detail_clip/get/details", args := [] }] ∧
    (DetailClip.fetch_details q).2 =
      mkClipDetails (q { path := "/live/view/detail_clip/get/details", args := [] }) ∧
    ((DetailClip.fetch_details q).2.isSome = true ↔
      (q { path := "/live/view/detail_clip/get/details", args := [] }).length = 8) ∧
    (∀ v1 v2 v3 v4 v5 v6 v7 v8,
      q { path := "/live/view/detail_clip/get/details", args := [] } =
        [v1, v2, v3, v4, v5, v6, v7, v8] →
      (DetailClip.fetch_details q).2 = some ⟨v1, v2, v3, v4, v5, v6, v7, v8⟩) := by
  refine ⟨rfl, rfl, mkClipDetails_isSome _, ?_⟩
  intro v1 v2 v3 v4 v5 v6 v7 v8 h
  show mkClipDetails (q { path := "/live/view/detail_clip/get/details", args := [] }) = _
  rw [h]
  rfl

/-- C10 witness: on a concrete response of exactly 8 values the construction
succeeds with those values in field order. -/
theorem DetailClip.fetch_details_spec_witness :
    (DetailClip.fetch_details exOracle8).2 =
      some ⟨Value.vstr "n", Value.vint 4, Value.vint 4, Value.vint 4,
            Value.vfloat 0, Value.vfloat 16, Value.vfloat 0, Value.vfloat 16⟩ :=
  (DetailClip.fetch_details_spec exOracle8).2.2.2 _ _ _ _ _ _ _ _ (by rfl)
